import Mathlib

/-
  Verification of the LRU crawler (src/crawler.c) against its specification.

  The C code is shallowly embedded: each C function that a claim depends on
  is translated into an executable Lean definition.  External collaborators
  (the item allocator, the hash table, the socket layer, the external storage
  tier) are modelled as oracle parameters: for example `item_is_flushed` and
  `storage_validate_item` become boolean inputs, and the socket `poll`/`write`
  loop consumes a script of poll events.
-/

namespace Memcached

/-- Byte view of an ASCII string literal. -/
def bytes (s : String) : List Nat := s.toList.map Char.toNat

/-- The item record (memcached `item`), restricted to the fields the crawler
reads.  Flag bits (`ITEM_FETCHED`, `ITEM_KEY_BINARY`, `ITEM_HDR`) are split
into booleans; `key` is the raw key bytes; `flags` are the client flags
recovered by `FLAGS_CONV`. -/
structure Item where
  exptime : Nat
  time : Nat
  key : List Nat
  cas : Nat
  clsid : Nat
  ntotal : Nat
  flags : Nat
  fetched : Bool
  key_binary : Bool
  hdr : Bool
  ext_page : Nat
  ext_offset : Nat
  deriving Repr, DecidableEq

/-- The crawler sentinel (`crawlers[i]`), restricted to the fields the claims
are about: the enable flag, the `remaining` budget and the three counters. -/
structure CrawlerSentinel where
  it_flags : Nat
  remaining : Nat
  reclaimed : Nat
  unfetched : Nat
  checked : Nat
  deriving Repr, DecidableEq

/-- Per-class statistics record (`crawlerstats_t`). -/
structure Crawlerstats where
  seen : Nat
  reclaimed : Nat
  noexp : Nat
  ttl_hourplus : Nat
  histo : Nat → Nat

/-- All-zero per-class statistics, as produced by `crawler_expired_init`. -/
def Crawlerstats.zero : Crawlerstats :=
  { seen := 0, reclaimed := 0, noexp := 0, ttl_hourplus := 0, histo := fun _ => 0 }

/-- The crawler client sink (`crawler_client_t`).  `attached` models
`c->c != NULL`; `buf` is the content of the allocated buffer (so `buf.length`
is the true allocation size, while `buflen` is the recorded size, which the
source keeps separately). -/
structure CrawlerClient where
  attached : Bool
  buf : List Nat
  buflen : Nat
  bufused : Nat
  deriving Repr, DecidableEq

/-- `lru_crawler_close_client`: the connection is returned to the server and
the buffer freed. -/
def closeClient (c : CrawlerClient) : CrawlerClient :=
  { c with attached := false, buf := [] }

/-- `lru_crawler_expand_buf`: doubles `buflen`, then reallocates.  `reallocOk`
is the oracle for whether `realloc` succeeds; on success the allocation is
grown to the new length (new bytes unspecified, modelled as 0), on failure the
function returns -1 with the allocation untouched. -/
def lru_crawler_expand_buf (reallocOk : Bool) (c : CrawlerClient) :
    Int × CrawlerClient :=
  let c1 : CrawlerClient := { c with buflen := c.buflen * 2 }
  if reallocOk then
    (0, { c1 with buf := c1.buf ++ List.replicate (c1.buflen - c1.buf.length) 0 })
  else
    (-1, c1)

/-- Effects and state produced by one `crawler_expired_eval` call.
`unlinked` records a `do_item_unlink_nolock` call, `removed` a
`do_item_remove` call (dropping the scanner's reference on the reap path),
`refcount_decred` a `refcount_decr` call (dropping it on the keep path),
`storage_deleted` a `STORAGE_delete` call. -/
structure ExpiredEvalResult where
  sentinel : CrawlerSentinel
  stats : Crawlerstats
  unlinked : Bool
  removed : Bool
  refcount_decred : Bool
  storage_deleted : Bool

/-- The keep-path statistics update of `crawler_expired_eval`
(src/crawler.c:247-259): bump `seen` and bucket the remaining TTL
(`noexp` for `exptime == 0`, `ttl_hourplus` above 3599 s, else the
minute histogram clamped to index 60). -/
def expired_keep_stats (now : Nat) (it : Item) (s : Crawlerstats) :
    Crawlerstats :=
  if it.exptime = 0 then { s with seen := s.seen + 1, noexp := s.noexp + 1 }
  else if it.exptime - now > 3599 then
    { s with seen := s.seen + 1, ttl_hourplus := s.ttl_hourplus + 1 }
  else
    let bucket := (it.exptime - now) / 60
    if bucket ≤ 60 then
      { s with
        seen := s.seen + 1,
        histo := fun b => if b = bucket then s.histo b + 1 else s.histo b }
    else { s with seen := s.seen + 1 }

/-- `crawler_expired_eval` (src/crawler.c:208-262).  `now` is `current_time`;
`is_flushed` is the oracle for `item_is_flushed(search)`; `validOracle` is the
oracle for `storage_validate_item` (consulted only for `ITEM_HDR` items, as in
the source).  `cr` is the class sentinel `crawlers[i]`, `s` the per-class
stats record. -/
def crawler_expired_eval (now : Nat) (it : Item) (is_flushed : Bool)
    (validOracle : Bool) (cr : CrawlerSentinel) (s : Crawlerstats) :
    ExpiredEvalResult :=
  let is_valid : Bool := if it.hdr then validOracle else true
  if (it.exptime ≠ 0 ∧ it.exptime < now) ∨ is_flushed = true ∨ is_valid = false then
    { sentinel :=
        { cr with
          reclaimed := cr.reclaimed + 1,
          unfetched :=
            if it.fetched = false ∧ is_flushed = false then cr.unfetched + 1
            else cr.unfetched },
      stats := { s with reclaimed := s.reclaimed + 1 },
      unlinked := true, removed := true, refcount_decred := false,
      storage_deleted := it.hdr }
  else
    { sentinel := cr, stats := expired_keep_stats now it s, unlinked := false,
      removed := false, refcount_decred := true, storage_deleted := false }

/-- One iteration of the poll loop inside `lru_crawler_write`, flattened to the
outcome the source reacts to: `perror` is `poll() < 0`; `timeout` is
`poll() == 0`; `pollinClosed` is `POLLIN` with the one-byte read detecting a
peer close or hard error; `hup` is `POLLHUP|POLLERR`; `writable n` is
`POLLOUT` with `conn.write` returning `n` bytes (clamped to the request);
`writeHardErr` is `conn.write` returning -1 with a non-retry errno or 0;
`writeEagain` is `conn.write` returning -1 with `EAGAIN` (the source then
still executes `sent += total`, i.e. adds `(unsigned)-1`). -/
inductive PollEv where
  | perror
  | timeout
  | pollinClosed
  | hup
  | writable (n : Nat)
  | writeHardErr
  | writeEagain
  deriving Repr, DecidableEq

/-- Outcome of `lru_crawler_write`: `done ret c` is a return with value `ret`
and client state `c`; `pending` marks exhaustion of the poll-event script
while the C loop would still be blocking in `poll`. -/
inductive WriteOutcome where
  | done (ret : Int) (c : CrawlerClient)
  | pending (sent : Nat) (c : CrawlerClient)
  deriving Repr, DecidableEq

/-- The `while (sent < data_size)` loop of `lru_crawler_write`
(src/crawler.c:454-493).  `sent` is an `unsigned int`, so the `EAGAIN` path
adds `2^32 - 1` modulo `2^32`. -/
def lru_crawler_write_loop (c : CrawlerClient) (dataSize : Nat) :
    List PollEv → Nat → WriteOutcome
  | evs, sent =>
    if sent < dataSize then
      match evs with
      | [] => .pending sent c
      | .perror :: _ => .done (-1) (closeClient c)
      | .timeout :: _ => .done 0 c
      | .pollinClosed :: _ => .done (-1) (closeClient c)
      | .hup :: _ => .done (-1) (closeClient c)
      | .writable n :: rest =>
        let total := min n (dataSize - sent)
        if total = 0 then .done (-1) (closeClient c)
        else lru_crawler_write_loop c dataSize rest (sent + total)
      | .writeHardErr :: _ => .done (-1) (closeClient c)
      | .writeEagain :: rest =>
        lru_crawler_write_loop c dataSize rest ((sent + (2 ^ 32 - 1)) % 2 ^ 32)
    else .done 0 { c with bufused := 0 }

/-- `lru_crawler_write` (src/crawler.c:444-499): returns -1 when no connection
is attached, 0 immediately when the buffer is empty, and otherwise runs the
poll loop over `bufused` bytes.  Note that a `poll` timeout returns 0 — the
same value as a complete drain — while leaving `bufused` untouched. -/
def lru_crawler_write (evs : List PollEv) (c : CrawlerClient) : WriteOutcome :=
  if c.attached = false then .done (-1) c
  else if c.bufused = 0 then .done 0 c
  else lru_crawler_write_loop c c.bufused evs 0

/-- `memcpy(buf + off, src, src.length)` on a buffer modelled as a byte
list. -/
def memcpyAt (buf : List Nat) (off : Nat) (src : List Nat) : List Nat :=
  buf.take off ++ src ++ buf.drop (off + src.length)

/-- Terminator chosen by the metadump finalizer: the locked error line when
the module status is nonzero, else the metadump end marker. -/
def metadumpTerminator (status : Nat) : List Nat :=
  if status ≠ 0 then bytes "ERROR locked try again later\r\n" else bytes "END\r\n"

/-- Terminator chosen by the mgdump finalizer. -/
def mgdumpTerminator (status : Nat) : List Nat :=
  if status ≠ 0 then bytes "ERROR locked try again later\r\n" else bytes "EN\r\n"

/-- `crawler_metadump_finalize` (src/crawler.c:373-389): when a client is
attached, flush; if the flush returned 0, `memcpy` the terminator to the
START of the buffer (`cm->c.buf`, offset 0) and add its length to `bufused`.
`none` stands for a poll-event script that ran out mid-flush. -/
def crawler_metadump_finalize (evs : List PollEv) (status : Nat)
    (c : CrawlerClient) : Option CrawlerClient :=
  if c.attached = true then
    match lru_crawler_write evs c with
    | .done r c1 =>
      if r = 0 then
        let term := metadumpTerminator status
        some { c1 with buf := memcpyAt c1.buf 0 term, bufused := c1.bufused + term.length }
      else some c1
    | .pending _ _ => none
  else some c

/-- `crawler_mgdump_finalize` (src/crawler.c:425-441): identical to the
metadump finalizer except for the `EN\r\n` end marker. -/
def crawler_mgdump_finalize (evs : List PollEv) (status : Nat)
    (c : CrawlerClient) : Option CrawlerClient :=
  if c.attached = true then
    match lru_crawler_write evs c with
    | .done r c1 =>
      if r = 0 then
        let term := mgdumpTerminator status
        some { c1 with buf := memcpyAt c1.buf 0 term, bufused := c1.bufused + term.length }
      else some c1
    | .pending _ _ => none
  else some c

/-- Modelled from the spec: the base64 encoder is listed in §6 among the
external hooks required by the crawler (its implementation, base64.c, is not
part of the crawler source).  Standard base64 alphabet. -/
def base64_table : List Nat :=
  bytes "ABCDEFGHIJKLMNOPQRSTUVWXYZabcdefghijklmnopqrstuvwxyz0123456789+/"

/-- Modelled from the spec: lookup of one 6-bit group in the base64
alphabet. -/
def b64char (n : Nat) : Nat := base64_table.getD n 0

/-- Modelled from the spec: the base64 encoder external hook (`base64_encode`),
standard base64 with `=` padding, processing the input in 3-byte groups. -/
def base64_encode : List Nat → List Nat
  | [] => []
  | [a] => [b64char (a / 4), b64char (a % 4 * 16), 61, 61]
  | [a, b] => [b64char (a / 4), b64char (a % 4 * 16 + b / 16),
               b64char (b % 16 * 4), 61]
  | a :: b :: c :: rest =>
    [b64char (a / 4), b64char (a % 4 * 16 + b / 16),
     b64char (b % 16 * 4 + c / 64), b64char (c % 64)] ++ base64_encode rest

/-- State produced by one dump-mode `eval` call: the client sink and whether
`refcount_decr` was called on the item. -/
structure DumpEvalResult where
  c : CrawlerClient
  refcount_decred : Bool

/-- The line written by `crawler_mgdump_eval` for a live item:
`mg <key>\r\n`, or `mg <base64-key> b\r\n` when `ITEM_KEY_BINARY` is set. -/
def mgdump_line (it : Item) : List Nat :=
  bytes "mg " ++
    (if it.key_binary then base64_encode it.key ++ bytes " b\r\n"
     else it.key ++ bytes "\r\n")

/-- `crawler_mgdump_eval` (src/crawler.c:396-423).  Expired
(`exptime != 0 && exptime < now`) or flushed items are skipped with only a
`refcount_decr`; live items get one `mg` line written at offset `bufused` and
`bufused` advanced by its length. -/
def crawler_mgdump_eval (now : Nat) (it : Item) (is_flushed : Bool)
    (c : CrawlerClient) : DumpEvalResult :=
  if (it.exptime ≠ 0 ∧ it.exptime < now) ∨ is_flushed = true then
    { c := c, refcount_decred := true }
  else
    let line := mgdump_line it
    { c := { c with buf := memcpyAt c.buf c.bufused line,
                    bufused := c.bufused + line.length },
      refcount_decred := true }

/-- Decimal ASCII rendering of a natural number (`itoa_64`/`itoa_u64` on the
nonnegative values the crawler passes them). -/
def decimalBytes (n : Nat) : List Nat := bytes (toString n)

/-- The `exp=` chunk of a metadump line (src/crawler.c:309-315): `-1` when
`exptime == 0`, else `exptime + process_started`.  Each chunk includes its
trailing space, as written by the unrolled formatter. -/
def metadump_exp_chunk (ps : Nat) (it : Item) : List Nat :=
  bytes "exp=" ++
    (if it.exptime = 0 then bytes "-1 "
     else decimalBytes (it.exptime + ps) ++ bytes " ")

/-- The `la=` chunk (src/crawler.c:317-319): `it->time + process_started`. -/
def metadump_la_chunk (ps : Nat) (it : Item) : List Nat :=
  bytes "la=" ++ decimalBytes (it.time + ps) ++ bytes " "

/-- The `fetch=` chunk (src/crawler.c:325-329). -/
def metadump_fetch_chunk (it : Item) : List Nat :=
  if it.fetched then bytes "fetch=yes " else bytes "fetch=no "

/-- The full line written by `crawler_metadump_eval` for a live item
(src/crawler.c:303-363).  `uriencode` is the URI-encoder external hook,
`ps` is `process_started`. -/
def metadump_line (uriencode : List Nat → List Nat) (ps : Nat) (it : Item) :
    List Nat :=
  bytes "key=" ++ uriencode it.key ++ bytes " " ++
  metadump_exp_chunk ps it ++
  metadump_la_chunk ps it ++
  bytes "cas=" ++ decimalBytes it.cas ++ bytes " " ++
  metadump_fetch_chunk it ++
  bytes "cls=" ++ decimalBytes it.clsid ++ bytes " " ++
  bytes "size=" ++ decimalBytes it.ntotal ++ bytes " " ++
  bytes "flags=" ++ decimalBytes it.flags ++ bytes " " ++
  (if it.hdr then
     bytes "ext_page=" ++ decimalBytes it.ext_page ++ bytes " " ++
     bytes "ext_offset=" ++ decimalBytes it.ext_offset ++ bytes " "
   else []) ++
  bytes "\n"

/-- `crawler_metadump_eval` (src/crawler.c:278-368).  Expired, flushed or
(for `ITEM_HDR` items) externally-invalid items are skipped with only a
`refcount_decr`; live items get one metadata line written at offset
`bufused`. -/
def crawler_metadump_eval (uriencode : List Nat → List Nat) (ps : Nat)
    (now : Nat) (it : Item) (is_flushed : Bool) (validOracle : Bool)
    (c : CrawlerClient) : DumpEvalResult :=
  let is_valid : Bool := if it.hdr then validOracle else true
  if (it.exptime ≠ 0 ∧ it.exptime < now) ∨ is_flushed = true ∨ is_valid = false then
    { c := c, refcount_decred := true }
  else
    let line := metadump_line uriencode ps it
    { c := { c with buf := memcpyAt c.buf c.bufused line,
                    bufused := c.bufused + line.length },
      refcount_decred := true }

/-- One `do_item_crawl_q` result inside the per-class scan loop of
`item_crawler_thread`.  `skipped` covers the two silent-skip paths of the
source (bucket `item_trylock` failure, or `refcount_incr(search) != 2`);
`evald` is an item that passes both and reaches the mode's `eval`, together
with the oracles its eval consumes. -/
inductive CrawlStep where
  | skipped
  | evald (it : Item) (is_flushed : Bool) (validOracle : Bool)

/-- Joint per-class state threaded through the scan: the class sentinel and
the class's expired-mode stats record. -/
structure ClassCrawlState where
  sentinel : CrawlerSentinel
  stats : Crawlerstats

/-- The per-class scan loop of `item_crawler_thread` (src/crawler.c:631-665),
for the EXPIRED mode, restricted to one class: each iteration takes the next
`do_item_crawl_q` result.  An empty list is `search == NULL` (the sentinel
reached the head): the class is done.  Otherwise the source evaluates
`crawlers[i].remaining && --crawlers[i].remaining < 1` — the budget is
decremented (when nonzero) before the trylock/refcount checks, and the class
is done when the decremented value reaches 0.  Surviving items bump
`checked` and are handed to `crawler_expired_eval`. -/
def item_crawler_class_loop (now : Nat) :
    List CrawlStep → ClassCrawlState → ClassCrawlState
  | [], st => st
  | step :: rest, st =>
    if st.sentinel.remaining ≠ 0 ∧ st.sentinel.remaining - 1 < 1 then
      { st with sentinel := { st.sentinel with remaining := st.sentinel.remaining - 1 } }
    else
      let sent1 : CrawlerSentinel :=
        if st.sentinel.remaining ≠ 0 then
          { st.sentinel with remaining := st.sentinel.remaining - 1 }
        else st.sentinel
      match step with
      | .skipped => item_crawler_class_loop now rest { st with sentinel := sent1 }
      | .evald it fl vo =>
        let sent2 : CrawlerSentinel := { sent1 with checked := sent1.checked + 1 }
        let r := crawler_expired_eval now it fl vo sent2 st.stats
        item_crawler_class_loop now rest { sentinel := r.sentinel, stats := r.stats }

/-- The `remaining` transformation of `do_lru_crawler_start`
(src/crawler.c:794): `if (remaining) remaining++;`. -/
def do_lru_crawler_start_remaining (remaining : Nat) : Nat :=
  if remaining ≠ 0 then remaining + 1 else 0

/-- The sentinel fields set by `do_lru_crawler_start` (src/crawler.c:775-799)
when the class sentinel is disabled: enabled flag, transformed budget, zeroed
counters. -/
def do_lru_crawler_start_sentinel (remaining : Nat) : CrawlerSentinel :=
  { it_flags := 1, remaining := do_lru_crawler_start_remaining remaining,
    reclaimed := 0, unfetched := 0, checked := 0 }

/-- Crawl type tags (`enum crawler_run_type`): `AUTOEXPIRE=0`, `EXPIRED=1`,
`METADUMP=2`, `MGDUMP=3`. -/
inductive CrawlerRunType where
  | autoexpire
  | expired
  | metadump
  | mgdump
  deriving Repr, DecidableEq

/-- `needs_client` of the module registered for each type
(src/crawler.c:65-105). -/
def needs_client : CrawlerRunType → Bool
  | .autoexpire => false
  | .expired => false
  | .metadump => true
  | .mgdump => true

/-- The controller state read and written by `lru_crawler_start`:
`do_run` is `do_run_lru_crawler_thread`, `is_running` is
`stats_state.lru_crawler_running`, `active_type` is `active_crawler_type`,
and `block_ae_until` is the function's static suppression variable. -/
structure LruCrawlerState where
  do_run : Bool
  is_running : Bool
  active_type : CrawlerRunType
  block_ae_until : Nat
  deriving Repr, DecidableEq

/-- Result of `lru_crawler_start`: the return value (-2, -1, or the number of
starts) and the controller state afterwards. -/
structure StartResult where
  ret : Int
  st : LruCrawlerState
  deriving Repr, DecidableEq

/-- `lru_crawler_start` (src/crawler.c:827-903) as a state transformer.
`idsNull` is `ids == NULL` (hash-walk request); `now` is `current_time`;
`classStarts` is the oracle for the total of the `do_lru_crawler_start`
calls over the id bitmap; `clientOk` is the oracle for
`c != NULL && sfd != 0` and the sink allocation succeeding.  Faithful
points: the `RUNNING` rejection assigns `block_ae_until = current_time + 60`
whatever the requested type was; the autoexpire-suppression check
(`block_ae_until > current_time`) comes next; module configuration happens
only when not running; in hash mode `starts` is forced to 1. -/
def lru_crawler_start (st : LruCrawlerState) (idsNull : Bool)
    (ty : CrawlerRunType) (now : Nat) (classStarts : Nat) (clientOk : Bool) :
    StartResult :=
  if st.do_run = false then ⟨-2, st⟩
  else if st.is_running = true ∧
      ¬(ty = CrawlerRunType.autoexpire ∧ st.active_type = CrawlerRunType.autoexpire) then
    ⟨-1, { st with block_ae_until := now + 60 }⟩
  else if ty = CrawlerRunType.autoexpire ∧ st.block_ae_until > now then
    ⟨-1, st⟩
  else if idsNull = true ∧ ty ≠ CrawlerRunType.metadump ∧ ty ≠ CrawlerRunType.mgdump then
    ⟨-2, st⟩
  else if st.is_running = false ∧ needs_client ty = true ∧ clientOk = false then
    ⟨-2, st⟩
  else
    let st1 : LruCrawlerState :=
      if st.is_running = false then { st with active_type := ty } else st
    let starts : Nat := if idsNull then 1 else classStarts
    if starts ≠ 0 then ⟨(starts : Int), { st1 with is_running := true }⟩
    else ⟨(starts : Int), st1⟩

/-- `MIN_ITEMS_PER_WRITE` (src/crawler.c:513). -/
def MIN_ITEMS_PER_WRITE : Nat := 16

/-- `LRU_CRAWLER_MINBUFSPACE` (src/crawler.c:128). -/
def LRU_CRAWLER_MINBUFSPACE : Nat := 8192

/-- State threaded through `item_crawl_hash`: the module's client sink, the
`items` appended-since-last-flush counter, and the module `status`. -/
structure HashWalkState where
  c : CrawlerClient
  items : Nat
  status : Nat
  deriving Repr, DecidableEq

/-- Outcome of the between-buckets handling inside `item_crawl_hash`:
continue iterating, or break out of the walk. -/
inductive HashBetweenResult where
  | cont (st : HashWalkState)
  | abort (st : HashWalkState)
  deriving Repr, DecidableEq

/-- The between-buckets step of `item_crawl_hash` (src/crawler.c:534-561,
`it == NULL` case): with a sink attached, flush only when strictly more than
`MIN_ITEMS_PER_WRITE` items have been appended (`items > MIN_ITEMS_PER_WRITE`),
resetting `items` to 0 right after the write call and aborting the walk when
the write failed; with no sink but a client-requiring mode, abort.  The
returned boolean records whether a flush was performed.  `none` stands for a
poll-event script that ran out mid-flush. -/
def item_crawl_hash_between (needsClient : Bool) (st : HashWalkState)
    (evs : List PollEv) : Option (HashBetweenResult × Bool) :=
  if st.c.attached = true then
    if st.items > MIN_ITEMS_PER_WRITE then
      match lru_crawler_write evs st.c with
      | .done r c1 =>
        if r = 0 then some (.cont { st with c := c1, items := 0 }, true)
        else some (.abort { st with c := c1, items := 0 }, true)
      | .pending _ _ => none
    else some (.cont st, false)
  else if needsClient = true then some (.abort st, false)
  else some (.cont st, false)

/-- One `assoc_iterate` result in the hash walk: `between` is the
between-buckets case (`it == NULL`, with the poll script a flush would use);
`found` is an item with its bucket locked, together with the oracle for
`refcount_incr(it) >= 2` and the oracle for a `realloc` in a possible buffer
expansion. -/
inductive HashStep where
  | between (evs : List PollEv)
  | found (it : Item) (refOk : Bool) (reallocOk : Bool)

/-- The iteration loop of `item_crawl_hash` (src/crawler.c:531-586),
parametrized by the mode's `eval` action on the client sink.  Returns the
final walk state and the number of `eval` invocations; `none` if a flush's
poll script ran out. -/
def item_crawl_hash_walk (evalFn : Item → CrawlerClient → CrawlerClient)
    (needsClient : Bool) :
    List HashStep → HashWalkState → Nat → Option (HashWalkState × Nat)
  | [], st, evals => some (st, evals)
  | .between evs :: rest, st, evals =>
    match item_crawl_hash_between needsClient st evs with
    | none => none
    | some (.cont st1, _) => item_crawl_hash_walk evalFn needsClient rest st1 evals
    | some (.abort st1, _) => some (st1, evals)
  | .found it refOk reallocOk :: rest, st, evals =>
    if refOk = false then item_crawl_hash_walk evalFn needsClient rest st evals
    else
      if st.c.attached = true ∧ st.c.buflen - st.c.bufused < LRU_CRAWLER_MINBUFSPACE then
        let res := lru_crawler_expand_buf reallocOk st.c
        if res.1 ≠ 0 then some ({ st with c := res.2 }, evals)
        else
          item_crawl_hash_walk evalFn needsClient rest
            { st with c := evalFn it res.2, items := st.items + 1 } (evals + 1)
      else
        item_crawl_hash_walk evalFn needsClient rest
          { st with c := evalFn it st.c, items := st.items + 1 } (evals + 1)

/-- `item_crawl_hash` (src/crawler.c:514-591).  `iterAvail` is the oracle for
`assoc_get_iterator()` returning non-null: when it is unavailable the module
status is set to 1 and the function returns immediately, before any
iteration. -/
def item_crawl_hash (evalFn : Item → CrawlerClient → CrawlerClient)
    (needsClient : Bool) (iterAvail : Bool) (steps : List HashStep)
    (st : HashWalkState) : Option (HashWalkState × Nat) :=
  if iterAvail = false then some ({ st with status := 1 }, 0)
  else item_crawl_hash_walk evalFn needsClient steps st 0

/-! ### Helper lemmas -/

theorem expired_keep_stats_spec (now : Nat) (it : Item) (s : Crawlerstats) :
    (expired_keep_stats now it s).seen = s.seen + 1 ∧
    (expired_keep_stats now it s).reclaimed = s.reclaimed := by
  simp only [expired_keep_stats]
  split
  · simp
  · split
    · simp
    · split <;> simp

theorem expired_eval_sentinel_checked (now : Nat) (it : Item) (fl vo : Bool)
    (cr : CrawlerSentinel) (s : Crawlerstats) :
    (crawler_expired_eval now it fl vo cr s).sentinel.checked = cr.checked := by
  simp only [crawler_expired_eval]
  by_cases h : (it.exptime ≠ 0 ∧ it.exptime < now) ∨ fl = true ∨
      (if it.hdr then vo else true) = false
  · rw [if_pos h]
  · rw [if_neg h]

theorem expired_eval_sentinel_remaining (now : Nat) (it : Item) (fl vo : Bool)
    (cr : CrawlerSentinel) (s : Crawlerstats) :
    (crawler_expired_eval now it fl vo cr s).sentinel.remaining = cr.remaining := by
  simp only [crawler_expired_eval]
  by_cases h : (it.exptime ≠ 0 ∧ it.exptime < now) ∨ fl = true ∨
      (if it.hdr then vo else true) = false
  · rw [if_pos h]
  · rw [if_neg h]

theorem expired_eval_stats_sum (now : Nat) (it : Item) (fl vo : Bool)
    (cr : CrawlerSentinel) (s : Crawlerstats) :
    (crawler_expired_eval now it fl vo cr s).stats.seen +
      (crawler_expired_eval now it fl vo cr s).stats.reclaimed =
      s.seen + s.reclaimed + 1 := by
  have hk := expired_keep_stats_spec now it s
  simp only [crawler_expired_eval]
  by_cases h : (it.exptime ≠ 0 ∧ it.exptime < now) ∨ fl = true ∨
      (if it.hdr then vo else true) = false
  · rw [if_pos h]
    simp
    omega
  · rw [if_neg h]
    simp [hk.1, hk.2]
    omega

theorem expired_eval_reclaimed_eq (now : Nat) (it : Item) (fl vo : Bool)
    (cr : CrawlerSentinel) (s : Crawlerstats)
    (h0 : cr.reclaimed = s.reclaimed) :
    (crawler_expired_eval now it fl vo cr s).sentinel.reclaimed =
      (crawler_expired_eval now it fl vo cr s).stats.reclaimed := by
  have hk := expired_keep_stats_spec now it s
  simp only [crawler_expired_eval]
  by_cases h : (it.exptime ≠ 0 ∧ it.exptime < now) ∨ fl = true ∨
      (if it.hdr then vo else true) = false
  · rw [if_pos h]
    simp [h0]
  · rw [if_neg h]
    simp [hk.2, h0]

theorem class_loop_checked_le (now : Nat) (steps : List CrawlStep) :
    ∀ st : ClassCrawlState, st.sentinel.remaining ≠ 0 →
      (item_crawler_class_loop now steps st).sentinel.checked ≤
        st.sentinel.checked + (st.sentinel.remaining - 1) := by
  induction steps with
  | nil =>
    intro st h
    simp [item_crawler_class_loop]
  | cons step rest ih =>
    intro st h
    by_cases h1 : st.sentinel.remaining ≠ 0 ∧ st.sentinel.remaining - 1 < 1
    · simp only [item_crawler_class_loop]
      rw [if_pos h1]
      simp
    · cases step with
      | skipped =>
        simp only [item_crawler_class_loop]
        rw [if_neg h1, if_pos h]
        refine le_trans (ih _ ?_) ?_
        · simp
          omega
        · simp
      | evald it fl vo =>
        simp only [item_crawler_class_loop]
        rw [if_neg h1, if_pos h]
        refine le_trans (ih _ ?_) ?_
        · simp [expired_eval_sentinel_remaining]
          omega
        · simp [expired_eval_sentinel_remaining, expired_eval_sentinel_checked]
          omega

theorem class_loop_invariant (now : Nat) (steps : List CrawlStep) :
    ∀ st : ClassCrawlState,
      st.stats.seen + st.stats.reclaimed = st.sentinel.checked →
      st.sentinel.reclaimed = st.stats.reclaimed →
      (item_crawler_class_loop now steps st).stats.seen +
          (item_crawler_class_loop now steps st).stats.reclaimed =
          (item_crawler_class_loop now steps st).sentinel.checked ∧
        (item_crawler_class_loop now steps st).sentinel.reclaimed =
          (item_crawler_class_loop now steps st).stats.reclaimed := by
  induction steps with
  | nil =>
    intro st hA hB
    simp only [item_crawler_class_loop]
    exact ⟨hA, hB⟩
  | cons step rest ih =>
    intro st hA hB
    by_cases h1 : st.sentinel.remaining ≠ 0 ∧ st.sentinel.remaining - 1 < 1
    · simp only [item_crawler_class_loop]
      rw [if_pos h1]
      exact ⟨hA, hB⟩
    · cases step with
      | skipped =>
        simp only [item_crawler_class_loop]
        rw [if_neg h1]
        apply ih
        · simp only [ClassCrawlState.stats, ClassCrawlState.sentinel]
          split <;> simpa using hA
        · simp only [ClassCrawlState.stats, ClassCrawlState.sentinel]
          split <;> simpa using hB
      | evald it fl vo =>
        simp only [item_crawler_class_loop]
        rw [if_neg h1]
        apply ih
        · simp only [ClassCrawlState.stats, ClassCrawlState.sentinel,
            expired_eval_stats_sum, expired_eval_sentinel_checked]
          split <;> simp <;> omega
        · apply expired_eval_reclaimed_eq
          split <;> simpa using hB

/-- C2: a class crawl started with budget `N > 0` stores `N + 1` in the
sentinel's `remaining` field, and the scan loop hands at most `N` items of
that class to the mode's eval (the sentinel's `checked` counter, bumped
exactly once per eval invocation, never exceeds `N`). -/
theorem C2_class_crawl_budget (now N : Nat) (steps : List CrawlStep)
    (hN : 0 < N) :
    (do_lru_crawler_start_sentinel N).remaining = N + 1 ∧
    (item_crawler_class_loop now steps
        ⟨do_lru_crawler_start_sentinel N, Crawlerstats.zero⟩).sentinel.checked ≤ N := by
  constructor
  · simp [do_lru_crawler_start_sentinel, do_lru_crawler_start_remaining]
    omega
  · have h := class_loop_checked_le now steps
      ⟨do_lru_crawler_start_sentinel N, Crawlerstats.zero⟩
      (by simp [do_lru_crawler_start_sentinel, do_lru_crawler_start_remaining]; omega)
    simpa [do_lru_crawler_start_sentinel, do_lru_crawler_start_remaining, hN.ne.symm]
      using h

/-- C2 witness: with `N = 1` and two crawlable items in the chain, only one
is evaluated. -/
theorem C2_witness :
    (0 : Nat) < 1 ∧
    (do_lru_crawler_start_sentinel 1).remaining = 1 + 1 ∧
    (item_crawler_class_loop 100
        [CrawlStep.evald ⟨0, 0, [], 0, 0, 0, 0, false, false, false, 0, 0⟩ false true,
         CrawlStep.evald ⟨0, 0, [], 0, 0, 0, 0, false, false, false, 0, 0⟩ false true]
        ⟨do_lru_crawler_start_sentinel 1, Crawlerstats.zero⟩).sentinel.checked ≤ 1 :=
  ⟨by decide,
   C2_class_crawl_budget 100 1
     [CrawlStep.evald ⟨0, 0, [], 0, 0, 0, 0, false, false, false, 0, 0⟩ false true,
      CrawlStep.evald ⟨0, 0, [], 0, 0, 0, 0, false, false, false, 0, 0⟩ false true]
     (by decide)⟩

/-- C7: for a class crawled by the EXPIRED mode (counters zeroed by
`do_lru_crawler_start` and `crawler_expired_init`), after the class completes
the per-class counters satisfy `seen + reclaimed == checked`: the scanner
bumps `checked` exactly once per item handed to eval, and eval bumps exactly
one of `seen` or `reclaimed`.  The sentinel's and the stats' `reclaimed`
counters also agree. -/
theorem C7_seen_plus_reclaimed_eq_checked (now N : Nat) (steps : List CrawlStep) :
    (item_crawler_class_loop now steps
        ⟨do_lru_crawler_start_sentinel N, Crawlerstats.zero⟩).stats.seen +
      (item_crawler_class_loop now steps
        ⟨do_lru_crawler_start_sentinel N, Crawlerstats.zero⟩).stats.reclaimed =
      (item_crawler_class_loop now steps
        ⟨do_lru_crawler_start_sentinel N, Crawlerstats.zero⟩).sentinel.checked ∧
    (item_crawler_class_loop now steps
        ⟨do_lru_crawler_start_sentinel N, Crawlerstats.zero⟩).sentinel.reclaimed =
      (item_crawler_class_loop now steps
        ⟨do_lru_crawler_start_sentinel N, Crawlerstats.zero⟩).stats.reclaimed := by
  apply class_loop_invariant
  · simp [do_lru_crawler_start_sentinel, Crawlerstats.zero]
  · simp [do_lru_crawler_start_sentinel, Crawlerstats.zero]

/-- C1: for every item handed to the EXPIRED-mode eval: on the
expired-or-flushed-or-invalid path, the sentinel's and the per-class stats'
`reclaimed` counters each go up by exactly one, the sentinel's `unfetched`
goes up exactly when the `FETCHED` flag is clear and the item is not flushed,
the item is unlinked and one reference dropped, and `seen` is untouched;
otherwise `seen` goes up by exactly one and the scanner's extra reference is
released, with all reclaim counters and the item untouched. -/
theorem C1_crawler_expired_eval_spec (now : Nat) (it : Item) (fl vo : Bool)
    (cr : CrawlerSentinel) (s : Crawlerstats) :
    (((it.exptime ≠ 0 ∧ it.exptime < now) ∨ fl = true ∨
        (if it.hdr then vo else true) = false) →
      (crawler_expired_eval now it fl vo cr s).sentinel.reclaimed = cr.reclaimed + 1 ∧
      (crawler_expired_eval now it fl vo cr s).stats.reclaimed = s.reclaimed + 1 ∧
      (crawler_expired_eval now it fl vo cr s).sentinel.unfetched =
        (if it.fetched = false ∧ fl = false then cr.unfetched + 1 else cr.unfetched) ∧
      (crawler_expired_eval now it fl vo cr s).unlinked = true ∧
      (crawler_expired_eval now it fl vo cr s).removed = true ∧
      (crawler_expired_eval now it fl vo cr s).refcount_decred = false ∧
      (crawler_expired_eval now it fl vo cr s).stats.seen = s.seen) ∧
    (¬((it.exptime ≠ 0 ∧ it.exptime < now) ∨ fl = true ∨
        (if it.hdr then vo else true) = false) →
      (crawler_expired_eval now it fl vo cr s).stats.seen = s.seen + 1 ∧
      (crawler_expired_eval now it fl vo cr s).refcount_decred = true ∧
      (crawler_expired_eval now it fl vo cr s).unlinked = false ∧
      (crawler_expired_eval now it fl vo cr s).removed = false ∧
      (crawler_expired_eval now it fl vo cr s).sentinel = cr ∧
      (crawler_expired_eval now it fl vo cr s).stats.reclaimed = s.reclaimed) := by
  have hk := expired_keep_stats_spec now it s
  constructor
  · intro h
    simp only [crawler_expired_eval]
    rw [if_pos h]
    simp
  · intro h
    simp only [crawler_expired_eval]
    rw [if_neg h]
    simp [hk.1, hk.2]

/-- C1 witness: concrete reap call (expired item, `FETCHED` clear, not
flushed) and concrete keep call. -/
theorem C1_witness :
    ((7 : Nat) ≠ 0 ∧ (7 : Nat) < 100) ∧
    (crawler_expired_eval 100 ⟨7, 0, [], 0, 0, 0, 0, false, false, false, 0, 0⟩
        false true ⟨1, 0, 3, 4, 5⟩ Crawlerstats.zero).sentinel.reclaimed = 3 + 1 ∧
    (crawler_expired_eval 100 ⟨200, 0, [], 0, 0, 0, 0, false, false, false, 0, 0⟩
        false true ⟨1, 0, 3, 4, 5⟩ Crawlerstats.zero).stats.seen = 0 + 1 := by
  refine ⟨by decide, ?_, ?_⟩
  · exact ((C1_crawler_expired_eval_spec 100 ⟨7, 0, [], 0, 0, 0, 0, false, false, false, 0, 0⟩
      false true ⟨1, 0, 3, 4, 5⟩ Crawlerstats.zero).1 (by decide)).1
  · exact ((C1_crawler_expired_eval_spec 100 ⟨200, 0, [], 0, 0, 0, 0, false, false, false, 0, 0⟩
      false true ⟨1, 0, 3, 4, 5⟩ Crawlerstats.zero).2 (by decide)).1

/-- C3: while a crawl is running, `lru_crawler_start` rejects a request as
RUNNING (-1) unless both the running and the requested type are AUTOEXPIRE,
and the rejection sets the suppression deadline to `current_time + 60`;
afterwards (in particular for an AUTOEXPIRE request that was so rejected),
every AUTOEXPIRE start made with that deadline in force and within the
60-second coarse-time window is rejected with -1, even when no crawl is
running. -/
theorem C3_running_reject_arms_suppression (st : LruCrawlerState)
    (idsNull : Bool) (ty : CrawlerRunType) (now : Nat) (cs : Nat) (cok : Bool)
    (hdo : st.do_run = true) (hrun : st.is_running = true)
    (hnot : ¬(ty = CrawlerRunType.autoexpire ∧
        st.active_type = CrawlerRunType.autoexpire)) :
    (lru_crawler_start st idsNull ty now cs cok).ret = -1 ∧
    (lru_crawler_start st idsNull ty now cs cok).st.block_ae_until = now + 60 ∧
    (∀ (st2 : LruCrawlerState) (idsNull2 : Bool) (now2 cs2 : Nat) (cok2 : Bool),
      st2.do_run = true →
      st2.block_ae_until = (lru_crawler_start st idsNull ty now cs cok).st.block_ae_until →
      now2 < now + 60 →
      (lru_crawler_start st2 idsNull2 CrawlerRunType.autoexpire now2 cs2 cok2).ret = -1) := by
  refine ⟨?_, ?_, ?_⟩
  · simp [lru_crawler_start, hdo, hrun, hnot]
  · simp [lru_crawler_start, hdo, hrun, hnot]
  · intro st2 idsNull2 now2 cs2 cok2 h2do h2blk hlt
    have hblk : st2.block_ae_until = now + 60 := by
      rw [h2blk]
      simp [lru_crawler_start, hdo, hrun, hnot]
    by_cases hr2 : st2.is_running = true
    · by_cases ha2 : st2.active_type = CrawlerRunType.autoexpire
      · simp [lru_crawler_start, h2do, hr2, ha2, hblk]
        rw [if_pos hlt]
      · simp [lru_crawler_start, h2do, hr2, ha2]
    · simp [lru_crawler_start, h2do, hr2, hblk]
      rw [if_pos hlt]

/-- C3 witness: a METADUMP-style rejection while an EXPIRED crawl runs at
coarse time 100 arms the window; an AUTOEXPIRE start at time 150 with no
crawl running is still rejected. -/
theorem C3_witness :
    ((⟨true, true, CrawlerRunType.expired, 0⟩ : LruCrawlerState).do_run = true ∧
      (⟨true, true, CrawlerRunType.expired, 0⟩ : LruCrawlerState).is_running = true) ∧
    (lru_crawler_start ⟨true, true, CrawlerRunType.expired, 0⟩ false
        CrawlerRunType.autoexpire 100 1 true).ret = -1 ∧
    (lru_crawler_start ⟨true, true, CrawlerRunType.expired, 0⟩ false
        CrawlerRunType.autoexpire 100 1 true).st.block_ae_until = 100 + 60 ∧
    (lru_crawler_start ⟨true, false, CrawlerRunType.expired, 160⟩ false
        CrawlerRunType.autoexpire 150 1 true).ret = -1 := by
  have h := C3_running_reject_arms_suppression
    ⟨true, true, CrawlerRunType.expired, 0⟩ false CrawlerRunType.autoexpire
    100 1 true rfl rfl (by decide)
  refine ⟨⟨rfl, rfl⟩, h.1, h.2.1, ?_⟩
  exact h.2.2 ⟨true, false, CrawlerRunType.expired, 160⟩ false 150 1 true rfl
    (by rw [h.2.1]) (by decide)

/-- C9: when the reallocation inside `lru_crawler_expand_buf` fails, the
function returns -1 with the allocation unchanged but `buflen` already
doubled, so a previously-consistent recorded length is now twice the actual
allocation. -/
theorem C9_expand_buf_failure_doubles_buflen (c : CrawlerClient) :
    (lru_crawler_expand_buf false c).1 = -1 ∧
    (lru_crawler_expand_buf false c).2.buf = c.buf ∧
    (lru_crawler_expand_buf false c).2.buflen = 2 * c.buflen ∧
    (c.buflen = c.buf.length →
      (lru_crawler_expand_buf false c).2.buflen =
        2 * (lru_crawler_expand_buf false c).2.buf.length) := by
  refine ⟨rfl, rfl, by simp [lru_crawler_expand_buf, Nat.mul_comm], ?_⟩
  intro h
  simp [lru_crawler_expand_buf, h, Nat.mul_comm]

/-- C9 witness: a failed expand on a consistent 2-byte buffer records
`buflen = 4` over a 2-byte allocation. -/
theorem C9_witness :
    (2 : Nat) = ([1, 2] : List Nat).length ∧
    (lru_crawler_expand_buf false ⟨true, [1, 2], 2, 0⟩).1 = -1 ∧
    (lru_crawler_expand_buf false ⟨true, [1, 2], 2, 0⟩).2.buflen =
      2 * (lru_crawler_expand_buf false ⟨true, [1, 2], 2, 0⟩).2.buf.length := by
  refine ⟨by decide, (C9_expand_buf_failure_doubles_buflen ⟨true, [1, 2], 2, 0⟩).1, ?_⟩
  exact (C9_expand_buf_failure_doubles_buflen ⟨true, [1, 2], 2, 0⟩).2.2.2 (by decide)

theorem memcpyAt_extract (buf src : List Nat) (off : Nat)
    (h : off ≤ buf.length) :
    ((memcpyAt buf off src).drop off).take src.length = src := by
  unfold memcpyAt
  have hlen : (buf.take off).length = off := by
    simp [List.length_take]
    omega
  rw [List.append_assoc, List.drop_left' hlen, List.take_left]

/-- C4: when the hash iterator is unavailable the hash scanner sets the mode
status to 1 and returns before any eval; when the finalizer's flush returns
success (0) the terminator written is the locked error line exactly when the
status is nonzero, else `END\r\n` for metadump and `EN\r\n` for mgdump; and
nothing is written when no client is attached or the flush failed. -/
theorem C4_finalize_terminator (evs : List PollEv) (status : Nat)
    (c : CrawlerClient) :
    (∀ (f : Item → CrawlerClient → CrawlerClient) (nc : Bool)
        (steps : List HashStep) (st : HashWalkState),
      item_crawl_hash f nc false steps st = some ({ st with status := 1 }, 0)) ∧
    (∀ c1 : CrawlerClient, c.attached = true →
      lru_crawler_write evs c = WriteOutcome.done 0 c1 →
      crawler_metadump_finalize evs status c =
        some { c1 with buf := memcpyAt c1.buf 0 (metadumpTerminator status),
                       bufused := c1.bufused + (metadumpTerminator status).length } ∧
      crawler_mgdump_finalize evs status c =
        some { c1 with buf := memcpyAt c1.buf 0 (mgdumpTerminator status),
                       bufused := c1.bufused + (mgdumpTerminator status).length }) ∧
    (status ≠ 0 →
      metadumpTerminator status = bytes "ERROR locked try again later\r\n" ∧
      mgdumpTerminator status = bytes "ERROR locked try again later\r\n") ∧
    (status = 0 →
      metadumpTerminator status = bytes "END\r\n" ∧
      mgdumpTerminator status = bytes "EN\r\n") ∧
    (c.attached = false →
      crawler_metadump_finalize evs status c = some c ∧
      crawler_mgdump_finalize evs status c = some c) ∧
    (∀ (r : Int) (c1 : CrawlerClient), c.attached = true →
      lru_crawler_write evs c = WriteOutcome.done r c1 → r ≠ 0 →
      crawler_metadump_finalize evs status c = some c1 ∧
      crawler_mgdump_finalize evs status c = some c1) := by
  refine ⟨?_, ?_, ?_, ?_, ?_, ?_⟩
  · intro f nc steps st
    simp [item_crawl_hash]
  · intro c1 hatt hw
    constructor
    · simp [crawler_metadump_finalize, hatt, hw]
    · simp [crawler_mgdump_finalize, hatt, hw]
  · intro h
    simp [metadumpTerminator, mgdumpTerminator, h]
  · intro h
    simp [metadumpTerminator, mgdumpTerminator, h]
  · intro h
    simp [crawler_metadump_finalize, crawler_mgdump_finalize, h]
  · intro r c1 hatt hw hr
    constructor
    · simp [crawler_metadump_finalize, hatt, hw, hr]
    · simp [crawler_mgdump_finalize, hatt, hw, hr]

/-- C4 witness: empty buffer, attached client, status 0: the final flush
trivially succeeds and the finalizers append `END\r\n` resp. `EN\r\n`. -/
theorem C4_witness :
    (⟨true, [], 16, 0⟩ : CrawlerClient).attached = true ∧
    lru_crawler_write [] (⟨true, [], 16, 0⟩ : CrawlerClient) =
      WriteOutcome.done 0 ⟨true, [], 16, 0⟩ ∧
    (crawler_metadump_finalize [] 0 ⟨true, [], 16, 0⟩ =
        some { (⟨true, [], 16, 0⟩ : CrawlerClient) with
               buf := memcpyAt (⟨true, [], 16, 0⟩ : CrawlerClient).buf 0
                 (metadumpTerminator 0),
               bufused := (⟨true, [], 16, 0⟩ : CrawlerClient).bufused +
                 (metadumpTerminator 0).length } ∧
      crawler_mgdump_finalize [] 0 ⟨true, [], 16, 0⟩ =
        some { (⟨true, [], 16, 0⟩ : CrawlerClient) with
               buf := memcpyAt (⟨true, [], 16, 0⟩ : CrawlerClient).buf 0
                 (mgdumpTerminator 0),
               bufused := (⟨true, [], 16, 0⟩ : CrawlerClient).bufused +
                 (mgdumpTerminator 0).length }) :=
  ⟨rfl, by decide,
   (C4_finalize_terminator [] 0 ⟨true, [], 16, 0⟩).2.1 ⟨true, [], 16, 0⟩ rfl
     (by decide)⟩

/-- C10: the finalizers write the terminator at offset 0 of the sink buffer
and add its length to `bufused`, and `lru_crawler_write` returns 0 — the
success value — on a poll timeout while leaving `bufused` and the pending
bytes in place; hence after a timed-out final flush the terminator overwrites
the first bytes of the retained output. -/
theorem C10_finalize_timeout_overwrites (c : CrawlerClient) (status : Nat)
    (hatt : c.attached = true) (hb : 0 < c.bufused) :
    lru_crawler_write [PollEv.timeout] c = WriteOutcome.done 0 c ∧
    crawler_metadump_finalize [PollEv.timeout] status c =
      some { c with
             buf := metadumpTerminator status ++
               c.buf.drop (metadumpTerminator status).length,
             bufused := c.bufused + (metadumpTerminator status).length } ∧
    crawler_mgdump_finalize [PollEv.timeout] status c =
      some { c with
             buf := mgdumpTerminator status ++
               c.buf.drop (mgdumpTerminator status).length,
             bufused := c.bufused + (mgdumpTerminator status).length } := by
  have hw : lru_crawler_write [PollEv.timeout] c = WriteOutcome.done 0 c := by
    simp only [lru_crawler_write, hatt]
    rw [if_neg (by simp), if_neg (by omega)]
    simp only [lru_crawler_write_loop]
    rw [if_pos hb]
  refine ⟨hw, ?_, ?_⟩
  · simp [crawler_metadump_finalize, hatt, hw, memcpyAt]
  · simp [crawler_mgdump_finalize, hatt, hw, memcpyAt]

/-- C10 witness: a pending `mg foo\r\n` line whose first five bytes are
overwritten by `END\r\n` after a timed-out final metadump flush. -/
theorem C10_witness :
    ((⟨true, bytes "mg foo\r\n", 16, 8⟩ : CrawlerClient).attached = true ∧
      (0 : Nat) < (⟨true, bytes "mg foo\r\n", 16, 8⟩ : CrawlerClient).bufused) ∧
    (lru_crawler_write [PollEv.timeout] ⟨true, bytes "mg foo\r\n", 16, 8⟩ =
        WriteOutcome.done 0 ⟨true, bytes "mg foo\r\n", 16, 8⟩ ∧
      crawler_metadump_finalize [PollEv.timeout] 0 ⟨true, bytes "mg foo\r\n", 16, 8⟩ =
        some { (⟨true, bytes "mg foo\r\n", 16, 8⟩ : CrawlerClient) with
               buf := metadumpTerminator 0 ++
                 (⟨true, bytes "mg foo\r\n", 16, 8⟩ : CrawlerClient).buf.drop
                   (metadumpTerminator 0).length,
               bufused := (⟨true, bytes "mg foo\r\n", 16, 8⟩ : CrawlerClient).bufused +
                 (metadumpTerminator 0).length } ∧
      crawler_mgdump_finalize [PollEv.timeout] 0 ⟨true, bytes "mg foo\r\n", 16, 8⟩ =
        some { (⟨true, bytes "mg foo\r\n", 16, 8⟩ : CrawlerClient) with
               buf := mgdumpTerminator 0 ++
                 (⟨true, bytes "mg foo\r\n", 16, 8⟩ : CrawlerClient).buf.drop
                   (mgdumpTerminator 0).length,
               bufused := (⟨true, bytes "mg foo\r\n", 16, 8⟩ : CrawlerClient).bufused +
                 (mgdumpTerminator 0).length }) :=
  ⟨⟨rfl, by decide⟩,
   C10_finalize_timeout_overwrites ⟨true, bytes "mg foo\r\n", 16, 8⟩ 0 rfl
     (by decide)⟩

/-- C5: for every live item the MGDUMP eval appends exactly one line at the
current buffer offset — `mg ` followed by the base64-encoded key and ` b\r\n`
when `KEY_BINARY` is set, else the raw key and `\r\n` — and in particular the
binary key `0x00 0xFF 0x41` yields `mg AP9B b\r\n`; expired or flushed items
produce no output and only have the scanner's reference dropped. -/
theorem C5_mgdump_eval_line (now : Nat) (it : Item) (fl : Bool)
    (c : CrawlerClient) :
    (¬((it.exptime ≠ 0 ∧ it.exptime < now) ∨ fl = true) →
      c.bufused ≤ c.buf.length →
      (crawler_mgdump_eval now it fl c).c.bufused =
        c.bufused + (mgdump_line it).length ∧
      ((crawler_mgdump_eval now it fl c).c.buf.drop c.bufused).take
          (mgdump_line it).length = mgdump_line it ∧
      (crawler_mgdump_eval now it fl c).refcount_decred = true) ∧
    (it.key_binary = true →
      mgdump_line it = bytes "mg " ++ base64_encode it.key ++ bytes " b\r\n") ∧
    (it.key_binary = false →
      mgdump_line it = bytes "mg " ++ it.key ++ bytes "\r\n") ∧
    mgdump_line ⟨0, 0, [0, 255, 65], 0, 0, 0, 0, false, true, false, 0, 0⟩ =
      bytes "mg AP9B b\r\n" ∧
    (((it.exptime ≠ 0 ∧ it.exptime < now) ∨ fl = true) →
      (crawler_mgdump_eval now it fl c).c = c ∧
      (crawler_mgdump_eval now it fl c).refcount_decred = true) := by
  refine ⟨?_, ?_, ?_, by decide, ?_⟩
  · intro h hb
    simp only [crawler_mgdump_eval]
    rw [if_neg h]
    exact ⟨rfl, memcpyAt_extract c.buf (mgdump_line it) c.bufused hb, rfl⟩
  · intro h
    simp [mgdump_line, h]
  · intro h
    simp [mgdump_line, h]
  · intro h
    simp only [crawler_mgdump_eval]
    rw [if_pos h]
    exact ⟨rfl, rfl⟩

/-- C5 witness: the binary key `0x00 0xFF 0x41` written into an empty buffer
yields exactly the bytes of `mg AP9B b\r\n`. -/
theorem C5_witness :
    (¬(((0 : Nat) ≠ 0 ∧ (0 : Nat) < 5) ∨ false = true) ∧
      (0 : Nat) ≤ (List.replicate 32 0 : List Nat).length) ∧
    ((crawler_mgdump_eval 5 ⟨0, 0, [0, 255, 65], 0, 0, 0, 0, false, true, false, 0, 0⟩
        false ⟨true, List.replicate 32 0, 32, 0⟩).c.buf.drop 0).take
          (mgdump_line ⟨0, 0, [0, 255, 65], 0, 0, 0, 0, false, true, false, 0, 0⟩).length =
      mgdump_line ⟨0, 0, [0, 255, 65], 0, 0, 0, 0, false, true, false, 0, 0⟩ ∧
    mgdump_line ⟨0, 0, [0, 255, 65], 0, 0, 0, 0, false, true, false, 0, 0⟩ =
      bytes "mg AP9B b\r\n" := by
  have h := C5_mgdump_eval_line 5
    ⟨0, 0, [0, 255, 65], 0, 0, 0, 0, false, true, false, 0, 0⟩ false
    ⟨true, List.replicate 32 0, 32, 0⟩
  exact ⟨⟨by decide, by decide⟩, (h.1 (by decide) (by decide)).2.1, h.2.2.2.1⟩

/-- C6: in every metadump line for a live item, the `exp` field is `-1`
exactly when `exptime == 0` and otherwise `exptime + process_started`, the
`la` field is `access time + process_started`, and the `fetch` field is `yes`
exactly when the `FETCHED` flag is set; the full line is appended at the
current buffer offset and the reference dropped. -/
theorem C6_metadump_fields (uriencode : List Nat → List Nat) (ps now : Nat)
    (it : Item) (fl vo : Bool) (c : CrawlerClient) :
    (¬((it.exptime ≠ 0 ∧ it.exptime < now) ∨ fl = true ∨
        (if it.hdr then vo else true) = false) →
      c.bufused ≤ c.buf.length →
      (crawler_metadump_eval uriencode ps now it fl vo c).c.bufused =
        c.bufused + (metadump_line uriencode ps it).length ∧
      ((crawler_metadump_eval uriencode ps now it fl vo c).c.buf.drop
          c.bufused).take (metadump_line uriencode ps it).length =
        metadump_line uriencode ps it ∧
      (crawler_metadump_eval uriencode ps now it fl vo c).refcount_decred = true) ∧
    (it.exptime = 0 → metadump_exp_chunk ps it = bytes "exp=-1 ") ∧
    (it.exptime ≠ 0 →
      metadump_exp_chunk ps it =
        bytes "exp=" ++ decimalBytes (it.exptime + ps) ++ bytes " ") ∧
    metadump_la_chunk ps it = bytes "la=" ++ decimalBytes (it.time + ps) ++ bytes " " ∧
    (it.fetched = true → metadump_fetch_chunk it = bytes "fetch=yes ") ∧
    (it.fetched = false → metadump_fetch_chunk it = bytes "fetch=no ") := by
  refine ⟨?_, ?_, ?_, rfl, ?_, ?_⟩
  · intro h hb
    simp only [crawler_metadump_eval]
    rw [if_neg h]
    exact ⟨rfl, memcpyAt_extract c.buf (metadump_line uriencode ps it) c.bufused hb, rfl⟩
  · intro h
    simp [metadump_exp_chunk, h]
    decide
  · intro h
    simp [metadump_exp_chunk, h]
  · intro h
    simp [metadump_fetch_chunk, h]
  · intro h
    simp [metadump_fetch_chunk, h]

/-- C6 witness: an item with `exptime = 100`, access time 50,
`process_started = 1000` and `FETCHED` set yields the chunks `exp=1100 `,
`la=1050 ` and `fetch=yes `, and the zero-exptime chunk is `exp=-1 `. -/
theorem C6_witness :
    ((100 : Nat) ≠ 0 ∧
      (⟨0, 0, [], 0, 0, 0, 0, true, false, false, 0, 0⟩ : Item).exptime = 0) ∧
    metadump_exp_chunk 1000 ⟨100, 50, [], 7, 3, 64, 9, true, false, false, 0, 0⟩ =
      bytes "exp=" ++ decimalBytes (100 + 1000) ++ bytes " " ∧
    metadump_exp_chunk 1000 ⟨0, 0, [], 0, 0, 0, 0, true, false, false, 0, 0⟩ =
      bytes "exp=-1 " ∧
    metadump_la_chunk 1000 ⟨100, 50, [], 7, 3, 64, 9, true, false, false, 0, 0⟩ =
      bytes "la=" ++ decimalBytes (50 + 1000) ++ bytes " " ∧
    metadump_fetch_chunk ⟨100, 50, [], 7, 3, 64, 9, true, false, false, 0, 0⟩ =
      bytes "fetch=yes " := by
  have h1 := C6_metadump_fields (fun k => k) 1000 5
    ⟨100, 50, [], 7, 3, 64, 9, true, false, false, 0, 0⟩ false true
    ⟨true, [], 0, 0⟩
  have h2 := C6_metadump_fields (fun k => k) 1000 5
    ⟨0, 0, [], 0, 0, 0, 0, true, false, false, 0, 0⟩ false true
    ⟨true, [], 0, 0⟩
  exact ⟨⟨by decide, rfl⟩, h1.2.2.1 (by decide), h2.2.1 rfl, h1.2.2.2.1,
    h1.2.2.2.2.1 rfl⟩

/-- C8 counterexample: with a sink attached and exactly
`MIN_ITEMS_PER_WRITE = 16` items appended since the last flush, the
between-buckets step performs no flush and leaves the state unchanged — the
source flushes only on `items > MIN_ITEMS_PER_WRITE`, so "at least 16" is
wrong at the boundary. -/
theorem C8_counterexample :
    MIN_ITEMS_PER_WRITE ≤ 16 ∧
    (⟨⟨true, [1], 1, 1⟩, 16, 0⟩ : HashWalkState).c.attached = true ∧
    item_crawl_hash_between true ⟨⟨true, [1], 1, 1⟩, 16, 0⟩ [PollEv.timeout] =
      some (HashBetweenResult.cont ⟨⟨true, [1], 1, 1⟩, 16, 0⟩, false) := by
  decide

/-- C8 (amended): at a between-buckets step with a sink attached, the buffer
is flushed exactly when strictly more than `MIN_ITEMS_PER_WRITE` (= 16) items
have been appended since the last flush (i.e. at least 17); the item counter
is reset right after the flush call, and a flush failure aborts the walk. -/
theorem C8_hash_between_flush_threshold (st : HashWalkState)
    (evs : List PollEv) (nc : Bool) (hatt : st.c.attached = true) :
    (st.items ≤ MIN_ITEMS_PER_WRITE →
      item_crawl_hash_between nc st evs =
        some (HashBetweenResult.cont st, false)) ∧
    (st.items > MIN_ITEMS_PER_WRITE →
      ∀ (r : Int) (c1 : CrawlerClient),
        lru_crawler_write evs st.c = WriteOutcome.done r c1 →
        (r = 0 → item_crawl_hash_between nc st evs =
            some (HashBetweenResult.cont { st with c := c1, items := 0 }, true)) ∧
        (r ≠ 0 → item_crawl_hash_between nc st evs =
            some (HashBetweenResult.abort { st with c := c1, items := 0 }, true))) := by
  constructor
  · intro h
    simp only [item_crawl_hash_between]
    rw [if_pos hatt, if_neg (by omega)]
  · intro h r c1 hw
    constructor
    · intro hr
      simp only [item_crawl_hash_between]
      rw [if_pos hatt, if_pos h, hw]
      simp [hr]
    · intro hr
      simp only [item_crawl_hash_between]
      rw [if_pos hatt, if_pos h, hw]
      simp [hr]

/-- C8 amended-claim witness: at 17 items a timed-out (hence
return-0) flush call counts as a performed flush and resets the counter. -/
theorem C8_witness :
    ((⟨⟨true, [1], 1, 1⟩, 17, 0⟩ : HashWalkState).c.attached = true ∧
      (⟨⟨true, [1], 1, 1⟩, 17, 0⟩ : HashWalkState).items > MIN_ITEMS_PER_WRITE ∧
      lru_crawler_write [PollEv.timeout]
          (⟨⟨true, [1], 1, 1⟩, 17, 0⟩ : HashWalkState).c =
        WriteOutcome.done 0 ⟨true, [1], 1, 1⟩) ∧
    item_crawl_hash_between true ⟨⟨true, [1], 1, 1⟩, 17, 0⟩ [PollEv.timeout] =
      some (HashBetweenResult.cont
        { (⟨⟨true, [1], 1, 1⟩, 17, 0⟩ : HashWalkState) with
          c := ⟨true, [1], 1, 1⟩, items := 0 }, true) :=
  ⟨⟨rfl, by decide, by decide⟩,
   ((C8_hash_between_flush_threshold ⟨⟨true, [1], 1, 1⟩, 17, 0⟩
       [PollEv.timeout] true rfl).2 (by decide) 0 ⟨true, [1], 1, 1⟩
       (by decide)).1 rfl⟩

end Memcached
